import Mathlib

/-!
Shallow embedding of the `pressure` crate (src/lib.rs): a Linux PSI memory
pressure monitor.  Pure parts (environment resolution, base64 decoding, the
per-kind wait decision) are translated directly; kernel interactions (file
metadata, open, write, poll, read) are modelled by explicit outcome
parameters (`FsWorld`, `WaitTrace`) so that every code path of the source,
including panics from `.unwrap()`, is represented.
-/

namespace Pressure

/-- Tag of `MonitorType` (src/lib.rs lines 124-128): the classified kind of
the open handle. -/
inductive MonitorKind
  | file
  | fifo
  | socket
deriving DecidableEq, Repr

/-- Result of `std::fs::metadata(path)?.file_type()`: the filesystem type of
the resolved source path. -/
inductive FileType
  | regular
  | fifo
  | socket
  | directory
  | charDevice
  | blockDevice
  | symlink
deriving DecidableEq, Repr

/-- The crate error enum (src/lib.rs lines 34-44): `Nix` wraps an OS errno
from the nix crate, `ioErr` models the `Io(std::io::Error)` variant,
`varError` the `VarError` variant, and `unexpectedFileType` the
`UnexpectedFileType` variant. -/
inductive Error
  | nix (errno : Nat)
  | ioErr
  | varError
  | unexpectedFileType
deriving DecidableEq, Repr

/-- The I/O class of the error taxonomy: OS-errno failures (`Nix`) and
`std::io` failures (`Io`) both arise from I/O on the source handle. -/
def Error.isIoClass : Error → Bool
  | .nix _ => true
  | .ioErr => true
  | _ => false

/-- Outcome of `std::env::var(name)`: present with a UTF-8 value, absent
(`VarError::NotPresent`), or present but not UTF-8 (`VarError::NotUnicode`). -/
inductive VarResult
  | present (s : String)
  | notPresent
  | notUnicode
deriving DecidableEq, Repr

/-- The two environment variables consulted by `init_monitor`. -/
structure Env where
  watch : VarResult
  write : VarResult

/-- Value of one character in the RFC 4648 standard base64 alphabet, as used
by `base64::prelude::BASE64_STANDARD`. -/
def b64Val (c : Char) : Option Nat :=
  if 'A' ≤ c ∧ c ≤ 'Z' then some (c.toNat - 65)
  else if 'a' ≤ c ∧ c ≤ 'z' then some (c.toNat - 97 + 26)
  else if '0' ≤ c ∧ c ≤ '9' then some (c.toNat - 48 + 52)
  else if c = '+' then some 62
  else if c = '/' then some 63
  else none

/-- Decode base64 in 4-character blocks with mandatory canonical padding and
rejection of nonzero trailing bits, matching `BASE64_STANDARD.decode`. -/
def base64DecodeChunks : List Char → Option (List Nat)
  | [] => some []
  | c1 :: c2 :: c3 :: c4 :: rest =>
    match b64Val c1, b64Val c2 with
    | some v1, some v2 =>
      if c3 = '=' then
        if c4 = '=' ∧ rest = [] ∧ v2 % 16 = 0 then
          some [v1 * 4 + v2 / 16]
        else none
      else
        match b64Val c3 with
        | some v3 =>
          if c4 = '=' then
            if rest = [] ∧ v3 % 4 = 0 then
              some [v1 * 4 + v2 / 16, (v2 % 16) * 16 + v3 / 4]
            else none
          else
            match b64Val c4 with
            | some v4 =>
              match base64DecodeChunks rest with
              | some bs =>
                  some ([v1 * 4 + v2 / 16, (v2 % 16) * 16 + v3 / 4,
                         (v3 % 4) * 64 + v4] ++ bs)
              | none => none
            | none => none
        | none => none
    | _, _ => none
  | _ => none

/-- `BASE64_STANDARD.decode` on a string: `some bytes` on valid input,
`none` on malformed input (where the source calls `.unwrap()` and panics). -/
def base64Decode (s : String) : Option (List Nat) :=
  base64DecodeChunks s.data

/-- The constant `DEFAULT_PRESSURE` (src/lib.rs line 150): the bytes of the
literal `b"some 20000 2000000\x00"`. -/
def DEFAULT_PRESSURE : List Nat :=
  ("some 20000 2000000".data.map Char.toNat) ++ [0]

/-- Outcome of the configuration-resolution phase of `init_monitor`
(src/lib.rs lines 153-168): a resolved path and arm bytes, the propagated
`VarError` from a non-UTF-8 `MEMORY_PRESSURE_WATCH`, or the panic from
`.unwrap()` on a failed base64 decode. -/
inductive CfgOutcome
  | ok (path : String) (write : List Nat)
  | varErr
  | panicked
deriving DecidableEq, Repr

/-- Translation of src/lib.rs lines 153-168: resolve the source path and the
arm bytes from `MEMORY_PRESSURE_WATCH` and `MEMORY_PRESSURE_WRITE`.
`Ok("/dev/null") | Err(VarError::NotPresent)` selects the default path and
`DEFAULT_PRESSURE`; any other `Ok(path)` consults `MEMORY_PRESSURE_WRITE`,
whose lookup failure (`Err(_)`, covering both absent and non-UTF-8) yields an
empty write; a non-UTF-8 `MEMORY_PRESSURE_WATCH` propagates as `VarError`. -/
def resolveConfig (env : Env) : CfgOutcome :=
  match env.watch with
  | .notUnicode => .varErr
  | .notPresent => .ok "/proc/pressure/memory" DEFAULT_PRESSURE
  | .present p =>
    if p = "/dev/null" then .ok "/proc/pressure/memory" DEFAULT_PRESSURE
    else
      match env.write with
      | .present w =>
        match base64Decode w with
        | some bs => .ok p bs
        | none => .panicked
      | .notPresent => .ok p []
      | .notUnicode => .ok p []

/-- Oracle for the kernel interactions of `init_monitor` (src/lib.rs lines
170-194): the metadata result per path (`none` models a `std::io::Error`),
and the outcomes of `nix::fcntl::open`, `nix::unistd::write` (errnos on
failure), `UnixStream::connect`, `set_nonblocking` and `write_all`
(`std::io` failures). -/
structure FsWorld where
  fileType : String → Option FileType
  openErr : Option Nat
  writeErr : Option Nat
  connectErr : Bool
  nonblockErr : Bool
  writeAllErr : Bool

/-- Overall outcome of `init_monitor`: a classified monitor, a returned
error, or a panic (the base64 `.unwrap()`). -/
inductive InitOutcome
  | ok (k : MonitorKind)
  | err (e : Error)
  | panicked
deriving DecidableEq, Repr

/-- Result of `init_monitor` together with the log of buffers passed to a
successful write on the opened source. -/
structure InitResult where
  outcome : InitOutcome
  writes : List (List Nat)
deriving DecidableEq, Repr

/-- Translation of `init_monitor` (src/lib.rs lines 152-195): resolve the
configuration, query the file type, then branch: regular file or fifo are
opened (`O_RDWR | O_CLOEXEC | O_NONBLOCK`) and armed with one
`nix::unistd::write` of the resolved bytes; a socket is connected, set
non-blocking and armed with `write_all`; any other type returns
`UnexpectedFileType` without writing. -/
def init_monitor (env : Env) (w : FsWorld) : InitResult :=
  match resolveConfig env with
  | .varErr => ⟨.err .varError, []⟩
  | .panicked => ⟨.panicked, []⟩
  | .ok path bytes =>
    match w.fileType path with
    | none => ⟨.err .ioErr, []⟩
    | some ft =>
      if ft = .regular ∨ ft = .fifo then
        match w.openErr with
        | some e => ⟨.err (.nix e), []⟩
        | none =>
          match w.writeErr with
          | some e => ⟨.err (.nix e), []⟩
          | none =>
            if ft = .regular then ⟨.ok .file, [bytes]⟩
            else ⟨.ok .fifo, [bytes]⟩
      else if ft = .socket then
        if w.connectErr then ⟨.err .ioErr, []⟩
        else if w.nonblockErr then ⟨.err .ioErr, []⟩
        else if w.writeAllErr then ⟨.err .ioErr, []⟩
        else ⟨.ok .socket, [bytes]⟩
      else ⟨.err .unexpectedFileType, []⟩

/-- Total number of bytes carried by the logged write calls. -/
def totalBytesWritten (ws : List (List Nat)) : Nat :=
  (ws.map List.length).sum

/-- The poll flags requested by the blocking wait (`PollFlags::POLLPRI` /
`PollFlags::POLLIN`). -/
inductive PollFlag
  | pollpri
  | pollin
deriving DecidableEq, Repr

/-- The tokio readiness interests requested by the async wait
(`Interest::PRIORITY` / `Interest::READABLE`). -/
inductive Interest
  | priority
  | readable
deriving DecidableEq, Repr

/-- Outcome of `nix::unistd::read` on the handle: a byte count, the benign
`Errno::EWOULDBLOCK`, or another errno. -/
inductive ReadResult
  | ok (n : Nat)
  | ewouldblock
  | err (errno : Nat)
deriving DecidableEq, Repr

/-- Outcome of `nix::poll::poll`. -/
inductive PollResult
  | ok
  | err (errno : Nat)
deriving DecidableEq, Repr

/-- Kernel responses consumed by one blocking `wait` call. -/
structure WaitTrace where
  poll : PollResult
  read : ReadResult
deriving DecidableEq, Repr

/-- Outcome of one `wait` call: `Ok(())`, a returned error, or a panic (the
`.unwrap()` on the poll result). -/
inductive WaitOutcome
  | ok
  | err (e : Error)
  | panicked
deriving DecidableEq, Repr

/-- Observable result of one blocking `wait` call: its outcome, the poll
flag it requested, and the buffer sizes of the drain reads it performed. -/
structure WaitResult where
  outcome : WaitOutcome
  flag : PollFlag
  reads : List Nat
deriving DecidableEq, Repr

/-- The `let (pollflag, needs_read) = match &self.pressure_file` decision of
the blocking wait (src/lib.rs lines 59-62). -/
def waitDecision : MonitorKind → PollFlag × Bool
  | .file => (.pollpri, false)
  | .fifo => (.pollin, true)
  | .socket => (.pollin, true)

/-- Translation of `PressureMonitor::wait` (src/lib.rs lines 58-77): poll
with the per-kind flag, `.unwrap()` the poll result (a poll failure panics),
then for fifo/socket drain with one `read` into a 1024-byte buffer, where
`EWOULDBLOCK` is success and any other errno propagates via `Err(e)?`. -/
def PressureMonitor.wait (k : MonitorKind) (t : WaitTrace) : WaitResult :=
  let d := waitDecision k
  match t.poll with
  | .err _ => ⟨.panicked, d.1, []⟩
  | .ok =>
    if d.2 then
      match t.read with
      | .ok _ => ⟨.ok, d.1, [1024]⟩
      | .ewouldblock => ⟨.ok, d.1, [1024]⟩
      | .err e => ⟨.err (.nix e), d.1, [1024]⟩
    else ⟨.ok, d.1, []⟩

/-- Kernel responses consumed by one async `wait` call: whether
`ready(..).await` returned an `std::io` error, and the read outcome. -/
structure TokioWaitTrace where
  readyErr : Bool
  read : ReadResult
deriving DecidableEq, Repr

/-- Observable result of one async `wait` call. -/
structure TokioWaitResult where
  outcome : WaitOutcome
  interest : Interest
  reads : List Nat
deriving DecidableEq, Repr

/-- The per-kind decision of the async wait (src/lib.rs lines 106-109). -/
def tokioWaitDecision : MonitorKind → Interest × Bool
  | .file => (.priority, false)
  | .fifo => (.readable, true)
  | .socket => (.readable, true)

/-- Translation of `tokio::PressureMonitor::wait` (src/lib.rs lines
105-120): await readiness with the per-kind interest, propagating a
readiness failure with `?` as an `Io` error, then for fifo/socket drain with
one `read` into a 512-byte buffer, `EWOULDBLOCK` being success and any other
errno propagating via `Err(e)?`. -/
def tokioWait (k : MonitorKind) (t : TokioWaitTrace) : TokioWaitResult :=
  let d := tokioWaitDecision k
  if t.readyErr then ⟨.err .ioErr, d.1, []⟩
  else
    if d.2 then
      match t.read with
      | .ok _ => ⟨.ok, d.1, [512]⟩
      | .ewouldblock => ⟨.ok, d.1, [512]⟩
      | .err e => ⟨.err (.nix e), d.1, [512]⟩
    else ⟨.ok, d.1, []⟩

/-- The correspondence between blocking poll flags and tokio interests that
both engines draw from the same kind dispatch. -/
def flagInterest : PollFlag → Interest
  | .pollpri => .priority
  | .pollin => .readable

/-- The `PressureMonitor` struct: its only state is the kind-tagged handle
`pressure_file`. -/
structure Monitor where
  pressure_file : MonitorKind
deriving DecidableEq, Repr

/-- One blocking `wait` call through `&mut self`: the source never assigns
to `self.pressure_file`, so the monitor state is returned unchanged. -/
def waitStep (m : Monitor) (t : WaitTrace) : WaitResult × Monitor :=
  (PressureMonitor.wait m.pressure_file t, m)

/-- A sequence of blocking `wait` calls on one monitor, threading the
monitor state through each call. -/
def runWaits (m : Monitor) : List WaitTrace → List WaitResult × Monitor
  | [] => ([], m)
  | t :: ts =>
    let r := waitStep m t
    let rest := runWaits r.2 ts
    (r.1 :: rest.1, rest.2)

end Pressure

namespace Pressure

/-- Helper: whenever configuration resolution produced path `p` and arm
bytes `bs` and `init_monitor` returns a classified monitor, exactly one
write of `bs` was performed on the opened source. -/
theorem init_writes_of_ok (env : Env) (w : FsWorld) (p : String)
    (bs : List Nat) (k : MonitorKind)
    (hc : resolveConfig env = .ok p bs) :
    (init_monitor env w).outcome = .ok k → (init_monitor env w).writes = [bs] := by
  unfold init_monitor
  rw [hc]
  cases hft : w.fileType p with
  | none => simp [hft]
  | some ft =>
    cases ft <;>
      cases ho : w.openErr <;>
      cases hw : w.writeErr <;>
      cases hce : w.connectErr <;>
      cases hne : w.nonblockErr <;>
      cases hwa : w.writeAllErr <;>
      simp [hft, ho, hw, hce, hne, hwa]

end Pressure

namespace Pressure

/-- Claim C1: for a RegularFile monitor, `wait` requests the priority
readiness flag (`POLLPRI`), performs no read, and returns `Ok`; for a
NamedPipe or StreamSocket monitor it requests the readable flag (`POLLIN`)
and then performs exactly one drain read with a 1024-byte buffer (at least
512 bytes), where `EWOULDBLOCK` is treated as success and any other read
errno is returned as an error of the I/O class. -/
theorem wait_kind_flag_and_drain (r : ReadResult) :
    PressureMonitor.wait .file ⟨.ok, r⟩ = ⟨.ok, .pollpri, []⟩
    ∧ (PressureMonitor.wait .fifo ⟨.ok, r⟩).flag = .pollin
    ∧ (PressureMonitor.wait .socket ⟨.ok, r⟩).flag = .pollin
    ∧ (PressureMonitor.wait .fifo ⟨.ok, r⟩).reads = [1024]
    ∧ (PressureMonitor.wait .socket ⟨.ok, r⟩).reads = [1024]
    ∧ 512 ≤ 1024
    ∧ (∀ n, (PressureMonitor.wait .fifo ⟨.ok, .ok n⟩).outcome = .ok
        ∧ (PressureMonitor.wait .socket ⟨.ok, .ok n⟩).outcome = .ok)
    ∧ (PressureMonitor.wait .fifo ⟨.ok, .ewouldblock⟩).outcome = .ok
    ∧ (PressureMonitor.wait .socket ⟨.ok, .ewouldblock⟩).outcome = .ok
    ∧ (∀ e, (PressureMonitor.wait .fifo ⟨.ok, .err e⟩).outcome = .err (.nix e)
        ∧ (PressureMonitor.wait .socket ⟨.ok, .err e⟩).outcome = .err (.nix e)
        ∧ (Error.nix e).isIoClass = true) := by
  cases r <;>
    exact ⟨rfl, rfl, rfl, rfl, rfl, by decide, fun n => ⟨rfl, rfl⟩, rfl, rfl,
           fun e => ⟨rfl, rfl, rfl⟩⟩

/-- Claim C2: when `MEMORY_PRESSURE_WATCH` is unset or equals `/dev/null`,
the resolved path is `/proc/pressure/memory` and the arm bytes are the
19-byte literal `some 20000 2000000\x00`, whatever `MEMORY_PRESSURE_WRITE`
holds; on a construction that classifies a monitor, exactly that buffer is
written. -/
theorem default_watch_resolution (wr : VarResult) (world : FsWorld)
    (k : MonitorKind) :
    resolveConfig ⟨.notPresent, wr⟩ = .ok "/proc/pressure/memory" DEFAULT_PRESSURE
    ∧ resolveConfig ⟨.present "/dev/null", wr⟩
        = .ok "/proc/pressure/memory" DEFAULT_PRESSURE
    ∧ DEFAULT_PRESSURE
        = [115, 111, 109, 101, 32, 50, 48, 48, 48, 48, 32,
           50, 48, 48, 48, 48, 48, 48, 0]
    ∧ DEFAULT_PRESSURE.length = 19
    ∧ ((init_monitor ⟨.notPresent, wr⟩ world).outcome = .ok k →
        (init_monitor ⟨.notPresent, wr⟩ world).writes = [DEFAULT_PRESSURE])
    ∧ ((init_monitor ⟨.present "/dev/null", wr⟩ world).outcome = .ok k →
        (init_monitor ⟨.present "/dev/null", wr⟩ world).writes
          = [DEFAULT_PRESSURE]) := by
  have h1 : resolveConfig ⟨.notPresent, wr⟩
      = .ok "/proc/pressure/memory" DEFAULT_PRESSURE := rfl
  have h2 : resolveConfig ⟨.present "/dev/null", wr⟩
      = .ok "/proc/pressure/memory" DEFAULT_PRESSURE := by
    show (if "/dev/null" = "/dev/null" then
        CfgOutcome.ok "/proc/pressure/memory" DEFAULT_PRESSURE
      else
        match wr with
        | .present w =>
          match base64Decode w with
          | some bs => CfgOutcome.ok "/dev/null" bs
          | none => CfgOutcome.panicked
        | .notPresent => CfgOutcome.ok "/dev/null" []
        | .notUnicode => CfgOutcome.ok "/dev/null" [])
      = CfgOutcome.ok "/proc/pressure/memory" DEFAULT_PRESSURE
    rw [if_pos rfl]
  exact ⟨h1, h2, by decide, by decide,
         init_writes_of_ok _ world _ _ k h1,
         init_writes_of_ok _ world _ _ k h2⟩

/-- Witness for C2 at a concrete environment and world: the watch variable
unset, a garbage write variable, and a regular file at the default path. -/
theorem default_watch_resolution_witness :
    (init_monitor ⟨.notPresent, .present "ignored"⟩
        ⟨fun _ => some .regular, none, none, false, false, false⟩).writes
      = [DEFAULT_PRESSURE] :=
  (default_watch_resolution (.present "ignored")
      ⟨fun _ => some .regular, none, none, false, false, false⟩
      .file).2.2.2.2.1 (by decide)

end Pressure

namespace Pressure

/-- Claim C3: with `MEMORY_PRESSURE_WATCH` set to a custom path (one other
than the null device), a construction that classifies a monitor performs exactly one write of
the base64-decoded `MEMORY_PRESSURE_WRITE` bytes, and zero bytes in total
when `MEMORY_PRESSURE_WRITE` is absent. -/
theorem custom_watch_write_bytes (p s : String) (bs : List Nat)
    (world : FsWorld) (k : MonitorKind)
    (hp : p ≠ "/dev/null") (hdec : base64Decode s = some bs) :
    ((init_monitor ⟨.present p, .present s⟩ world).outcome = .ok k →
      (init_monitor ⟨.present p, .present s⟩ world).writes = [bs])
    ∧ ((init_monitor ⟨.present p, .notPresent⟩ world).outcome = .ok k →
      totalBytesWritten (init_monitor ⟨.present p, .notPresent⟩ world).writes
        = 0) := by
  have hc1 : resolveConfig ⟨.present p, .present s⟩ = .ok p bs := by
    simp [resolveConfig, hp, hdec]
  have hc2 : resolveConfig ⟨.present p, .notPresent⟩ = .ok p [] := by
    simp [resolveConfig, hp]
  refine ⟨init_writes_of_ok _ world _ _ k hc1, fun h => ?_⟩
  rw [init_writes_of_ok _ world _ _ k hc2 h]
  rfl

/-- Witness for C3: a fifo at a custom path, `MEMORY_PRESSURE_WRITE` set to
the base64 of the two bytes `hi`. -/
theorem custom_watch_write_bytes_witness :
    base64Decode "aGk=" = some [104, 105]
    ∧ (init_monitor ⟨.present "/tmp/watch", .present "aGk="⟩
        ⟨fun _ => some .fifo, none, none, false, false, false⟩).writes
      = [[104, 105]] :=
  ⟨by decide,
   (custom_watch_write_bytes "/tmp/watch" "aGk=" [104, 105]
       ⟨fun _ => some .fifo, none, none, false, false, false⟩
       .fifo (by decide) (by decide)).1 (by decide)⟩

/-- Claim C4 (code bug): with `MEMORY_PRESSURE_WATCH` set to a custom path
and `MEMORY_PRESSURE_WRITE` holding malformed base64, the source calls
`.unwrap()` on the decode result (src/lib.rs line 162), so construction
panics instead of returning the configuration error the spec requires. -/
theorem malformed_base64_panics :
    base64Decode "!!!" = none
    ∧ resolveConfig ⟨.present "/tmp/pressure", .present "!!!"⟩ = .panicked
    ∧ (init_monitor ⟨.present "/tmp/pressure", .present "!!!"⟩
        ⟨fun _ => some .regular, none, none, false, false, false⟩).outcome
      = .panicked := by
  exact ⟨by decide, by decide, by decide⟩

/-- Claim C5 (code bug): the blocking `wait` calls `.unwrap()` on the
result of `nix::poll::poll` (src/lib.rs lines 63-67), so a poll failure
(here errno 4, EINTR) panics instead of surfacing as an I/O-class error;
the async engine by contrast propagates a readiness failure as the Io
variant. -/
theorem poll_failure_panics :
    PressureMonitor.wait .file ⟨.err 4, .ok 0⟩ = ⟨.panicked, .pollpri, []⟩
    ∧ PressureMonitor.wait .fifo ⟨.err 4, .ok 0⟩ = ⟨.panicked, .pollin, []⟩
    ∧ PressureMonitor.wait .socket ⟨.err 4, .ok 0⟩ = ⟨.panicked, .pollin, []⟩
    ∧ (tokioWait .file ⟨true, .ok 0⟩).outcome = .err .ioErr
    ∧ (Error.ioErr).isIoClass = true := by
  exact ⟨rfl, rfl, rfl, rfl, rfl⟩

/-- Claim C6: when the resolved path has a filesystem type other than
regular file, fifo or socket, `init_monitor` returns `UnexpectedFileType`
and performs no write at all. -/
theorem unexpected_type_no_write (env : Env) (world : FsWorld) (p : String)
    (bs : List Nat) (ft : FileType)
    (hc : resolveConfig env = .ok p bs)
    (hft : world.fileType p = some ft)
    (h1 : ft ≠ .regular) (h2 : ft ≠ .fifo) (h3 : ft ≠ .socket) :
    init_monitor env world = ⟨.err .unexpectedFileType, []⟩ := by
  simp [init_monitor, hc, hft, h1, h2, h3]

/-- Witness for C6: the default environment with a directory at the default
path. -/
theorem unexpected_type_no_write_witness :
    init_monitor ⟨.notPresent, .notPresent⟩
        ⟨fun _ => some .directory, none, none, false, false, false⟩
      = ⟨.err .unexpectedFileType, []⟩ :=
  unexpected_type_no_write ⟨.notPresent, .notPresent⟩
    ⟨fun _ => some .directory, none, none, false, false, false⟩
    "/proc/pressure/memory" DEFAULT_PRESSURE .directory
    rfl rfl (by decide) (by decide) (by decide)

end Pressure

namespace Pressure

/-- Counterexample to claim C7: with `MEMORY_PRESSURE_WATCH` set to the
custom path `/tmp/custom` and `MEMORY_PRESSURE_WRITE` present but not
UTF-8, the `Err(_)` arm of src/lib.rs line 165 silently treats the variable
as absent, so construction succeeds (classifying a regular file) instead of
failing with an environment error. -/
theorem write_var_not_unicode_succeeds :
    (init_monitor ⟨.present "/tmp/custom", .notUnicode⟩
        ⟨fun _ => some .regular, none, none, false, false, false⟩)
      = ⟨.ok .file, [[]]⟩ := by
  decide

/-- Claim C7 as amended: a non-UTF-8 `MEMORY_PRESSURE_WATCH` does fail
construction with the environment-variable error, but a non-UTF-8
`MEMORY_PRESSURE_WRITE` under a custom path is treated like an absent
variable: the arm bytes resolve to empty and no environment error arises
from it. -/
theorem env_not_unicode_behavior :
    (∀ (wr : VarResult) (world : FsWorld),
      init_monitor ⟨.notUnicode, wr⟩ world = ⟨.err .varError, []⟩)
    ∧ (∀ p : String, p ≠ "/dev/null" →
        resolveConfig ⟨.present p, .notUnicode⟩ = .ok p []) := by
  refine ⟨fun wr world => rfl, fun p hp => ?_⟩
  simp [resolveConfig, hp]

/-- Witness for the amended C7 at concrete inputs. -/
theorem env_not_unicode_behavior_witness :
    init_monitor ⟨.notUnicode, .present "x"⟩
        ⟨fun _ => some .regular, none, none, false, false, false⟩
      = ⟨.err .varError, []⟩
    ∧ resolveConfig ⟨.present "/tmp/custom", .notUnicode⟩
      = .ok "/tmp/custom" [] :=
  ⟨env_not_unicode_behavior.1 (.present "x")
      ⟨fun _ => some .regular, none, none, false, false, false⟩,
   env_not_unicode_behavior.2 "/tmp/custom" (by decide)⟩

/-- Claim C8: the async wait engine agrees with the blocking one on every
aspect the claim enumerates: the readiness interest per kind corresponds to
the poll flag (priority for a regular file, readable for fifo and socket),
the drain-or-not decision is the same, and on a successful readiness signal
the drain handling (would-block as success, other errnos propagated as the
same error) produces the same outcome and the same number of drain reads. -/
theorem async_wait_matches_blocking (k : MonitorKind) (r : ReadResult) :
    flagInterest (waitDecision k).1 = (tokioWaitDecision k).1
    ∧ (waitDecision k).2 = (tokioWaitDecision k).2
    ∧ (PressureMonitor.wait k ⟨.ok, r⟩).outcome
        = (tokioWait k ⟨false, r⟩).outcome
    ∧ (PressureMonitor.wait k ⟨.ok, r⟩).reads.length
        = (tokioWait k ⟨false, r⟩).reads.length := by
  cases k <;> cases r <;> exact ⟨rfl, rfl, rfl, rfl⟩

/-- Claim C9: the classified kind is the monitor's only state and no
sequence of `wait` calls, whatever their poll and read outcomes, ever
changes it. -/
theorem kind_immutable_across_waits (m : Monitor) (ts : List WaitTrace) :
    (runWaits m ts).2.pressure_file = m.pressure_file := by
  induction ts generalizing m with
  | nil => rfl
  | cons t ts ih => simpa [runWaits, waitStep] using ih m

/-- Claim C10: an explicit `MEMORY_PRESSURE_WATCH` equal to the default
path `/proc/pressure/memory` takes the custom-path branch: the arm bytes
come from decoding `MEMORY_PRESSURE_WRITE` (or are empty when it is
absent), not from the fixed `DEFAULT_PRESSURE` literal, and a successful
construction writes exactly those bytes. -/
theorem explicit_default_path_custom_branch (s : String) (bs : List Nat)
    (world : FsWorld) (k : MonitorKind)
    (hdec : base64Decode s = some bs) :
    resolveConfig ⟨.present "/proc/pressure/memory", .present s⟩
      = .ok "/proc/pressure/memory" bs
    ∧ resolveConfig ⟨.present "/proc/pressure/memory", .notPresent⟩
      = .ok "/proc/pressure/memory" []
    ∧ ((init_monitor ⟨.present "/proc/pressure/memory", .present s⟩
          world).outcome = .ok k →
        (init_monitor ⟨.present "/proc/pressure/memory", .present s⟩
          world).writes = [bs])
    ∧ ((init_monitor ⟨.present "/proc/pressure/memory", .notPresent⟩
          world).outcome = .ok k →
        totalBytesWritten
          (init_monitor ⟨.present "/proc/pressure/memory", .notPresent⟩
            world).writes = 0) := by
  have hp : "/proc/pressure/memory" ≠ "/dev/null" := by decide
  have hc1 : resolveConfig ⟨.present "/proc/pressure/memory", .present s⟩
      = .ok "/proc/pressure/memory" bs := by
    simp [resolveConfig, hdec]
  have hc2 : resolveConfig ⟨.present "/proc/pressure/memory", .notPresent⟩
      = .ok "/proc/pressure/memory" [] := by
    simp [resolveConfig]
  refine ⟨hc1, hc2, init_writes_of_ok _ world _ _ k hc1, fun h => ?_⟩
  rw [init_writes_of_ok _ world _ _ k hc2 h]
  rfl

/-- Witness for C10: the write variable holds the base64 of the two bytes
`hi` and the default path carries a regular file. -/
theorem explicit_default_path_custom_branch_witness :
    resolveConfig ⟨.present "/proc/pressure/memory", .present "aGk="⟩
      = .ok "/proc/pressure/memory" [104, 105]
    ∧ (init_monitor ⟨.present "/proc/pressure/memory", .present "aGk="⟩
        ⟨fun _ => some .regular, none, none, false, false, false⟩).writes
      = [[104, 105]] :=
  ⟨(explicit_default_path_custom_branch "aGk=" [104, 105]
      ⟨fun _ => some .regular, none, none, false, false, false⟩
      .file (by decide)).1,
   (explicit_default_path_custom_branch "aGk=" [104, 105]
      ⟨fun _ => some .regular, none, none, false, false, false⟩
      .file (by decide)).2.2.1 (by decide)⟩

end Pressure
